import Mathlib

/-!
Verification of the Fourier Transformer operator core (src/libs/model.py).

Shallow embedding of the construction-time dispatch and the forward-pass
dataflow of `FourierTransformer` / `FourierTransformer2D` and their
sub-modules, together with theorems settling the frozen claims.

Tensors are embedded as (nested) lists of rationals; elementwise torch
operations become `List.zipWith` / `List.map`.  Sub-modules whose code lives
in `libs/layers.py` (absent from src/) are either abstracted as opaque
functions of the right shape or modelled from the spec, as marked in the
doc comments.
-/

namespace FourierOperator

/-! ## Encoder-layer construction (model.py lines 34-92) -/

/-- Effective dropout computed in `FourierTransformerEncoderLayer.__init__`
(model.py lines 56-59): a `None` dropout falls back to the class default 0.1,
and the `linear` / `softmax` attention variants force dropout to 0.1. -/
def effectiveDropout (attention_type : String) (dropout : Option ℚ) : ℚ :=
  let d : ℚ := match dropout with
    | none => 1/10
    | some v => v
  if attention_type = "linear" ∨ attention_type = "softmax" then 1/10 else d

/-- Modelled from the spec: `SimpleAttention` lives in `libs/layers.py`, which
is not under src/.  Spec section 3 (invariants) and section 4.1 (failure
conditions) require construction to fail when the head count does not evenly
divide the hidden width (each head gets `d_model / n_head` channels). -/
def mkSimpleAttention (n_head d_model : Nat) : Except String Unit :=
  if d_model % n_head = 0 then Except.ok ()
  else Except.error "d_model must be divisible by n_head"

/-- Configuration of a built `FourierTransformerEncoderLayer`. -/
structure EncoderLayerCfg where
  d_model : Nat
  n_head : Nat
  attention_type : String
  dropout : ℚ
deriving DecidableEq, Repr

/-- Embeds `FourierTransformerEncoderLayer.__init__` (model.py lines 34-92):
resolves the effective dropout and constructs the `SimpleAttention`
sub-module, propagating its construction failure. -/
def mkFourierTransformerEncoderLayer (d_model n_head : Nat)
    (attention_type : String) (dropout : Option ℚ) :
    Except String EncoderLayerCfg := do
  let d := effectiveDropout attention_type dropout
  let _ ← mkSimpleAttention n_head d_model
  pure { d_model := d_model, n_head := n_head,
         attention_type := attention_type, dropout := d }

/-! ## Operator construction: encoder dispatch (model.py 733-761, 947-974) -/

/-- Embeds torch `nn.MultiheadAttention` construction (external library,
reached from `TransformerEncoderLayer.__init__`, model.py line 149): it
asserts that the embedding width is divisible by the head count. -/
def mkMultiheadAttention (embed_dim num_heads : Nat) : Except String Unit :=
  if embed_dim % num_heads = 0 then Except.ok ()
  else Except.error "AssertionError: embed_dim must be divisible by num_heads"

/-- Embeds torch `nn.Dropout` construction (external library): an unset
(`None`) rate raises a TypeError from the `p < 0` comparison, and a rate
outside `[0, 1]` raises a ValueError. -/
def mkDropout (p : Option ℚ) : Except String Unit :=
  match p with
  | none =>
    Except.error "TypeError: dropout rate None is not comparable with int"
  | some q =>
    if q < 0 ∨ 1 < q then
      Except.error "ValueError: dropout probability has to be between 0 and 1"
    else Except.ok ()

/-- Embeds `TransformerEncoderLayer.__init__` (model.py lines 142-161), the
stock layer used by the fallback branches: it passes the configured dropout
straight through — `MultiheadAttention` first (line 149), then
`nn.Dropout(dropout)` (line 152), which crashes when the dropout is unset
(`None`); unlike the custom layer it has no `None`-to-0.1 guard. -/
def mkTransformerEncoderLayer (d_model nhead : Nat) (dropout : Option ℚ) :
    Except String Unit := do
  let _ ← mkMultiheadAttention d_model nhead
  let _ ← mkDropout dropout
  pure ()

/-- The kind of encoder layer the orchestrators build. -/
inductive EncoderKind where
  /-- the custom `FourierTransformerEncoderLayer` -/
  | fourierLayer (cfg : EncoderLayerCfg)
  /-- the stock `TransformerEncoderLayer` wrapping torch multihead attention -/
  | officialLayer
deriving DecidableEq, Repr

/-- Recognized attention variants of the 1D operator
(`FourierTransformer._get_setting`, model.py lines 709-710). -/
def attentionTypes1d : List String :=
  ["fourier", "integral", "cosine", "galerkin", "linear", "softmax"]

/-- Recognized attention variants of the 2D operator
(`FourierTransformer2D._get_setting`, model.py lines 904-905). -/
def attentionTypes2d : List String :=
  ["fourier", "integral", "local", "global", "cosine", "galerkin", "linear",
   "softmax"]

/-- Embeds `FourierTransformer._get_encoder` (model.py lines 733-761): a recognized
variant builds the custom layer; ANY other string builds the official torch
encoder layer — there is no "not implemented" branch in the 1D dispatch.
The fallback constructs `TransformerEncoderLayer` with
`dropout=self.encoder_dropout` (lines 753-759), so it inherits that
constructor's failures (in particular the `nn.Dropout(None)` crash when the
dropout is unset). -/
def getEncoder1d (attention_type : String) (n_hidden n_head : Nat)
    (encoder_dropout : Option ℚ) : Except String EncoderKind :=
  if attention_type ∈ attentionTypes1d then
    match mkFourierTransformerEncoderLayer n_hidden n_head attention_type
        encoder_dropout with
    | Except.ok cfg => Except.ok (EncoderKind.fourierLayer cfg)
    | Except.error e => Except.error e
  else
    match mkTransformerEncoderLayer n_hidden n_head encoder_dropout with
    | Except.ok _ => Except.ok EncoderKind.officialLayer
    | Except.error e => Except.error e

/-- Embeds `FourierTransformer2D._get_encoder` (model.py lines 947-974): a recognized
variant builds the custom layer, `official` builds the torch layer (passing
`dropout=self.encoder_dropout` through, lines 963-970, with the same
constructor failures), and any other string raises
`NotImplementedError("encoder type not implemented.")`. -/
def getEncoder2d (attention_type : String) (n_hidden n_head : Nat)
    (encoder_dropout : Option ℚ) : Except String EncoderKind :=
  if attention_type ∈ attentionTypes2d then
    match mkFourierTransformerEncoderLayer n_hidden n_head attention_type
        encoder_dropout with
    | Except.ok cfg => Except.ok (EncoderKind.fourierLayer cfg)
    | Except.error e => Except.error e
  else if attention_type = "official" then
    match mkTransformerEncoderLayer n_hidden n_head encoder_dropout with
    | Except.ok _ => Except.ok EncoderKind.officialLayer
    | Except.error e => Except.error e
  else
    Except.error "encoder type not implemented."

/-- Embeds `FourierTransformer.__init__ -> _initialize -> _get_encoder`
(model.py lines 627-632, 675-686, 760-761): construction resolves the encoder
layer once and deep-copies it `num_ft_layers` times, before any forward. -/
def mkFourierTransformer1d (attention_type : String) (n_hidden n_head : Nat)
    (encoder_dropout : Option ℚ) (num_ft_layers : Nat) :
    Except String (List EncoderKind) := do
  let enc ← getEncoder1d attention_type n_hidden n_head encoder_dropout
  pure (List.replicate num_ft_layers enc)

/-- Embeds `FourierTransformer2D.__init__ -> _initialize -> _get_encoder`
(model.py lines 809-814, 865-869, 973-974). -/
def mkFourierTransformer2d (attention_type : String) (n_hidden n_head : Nat)
    (encoder_dropout : Option ℚ) (num_ft_layers : Nat) :
    Except String (List EncoderKind) := do
  let enc ← getEncoder2d attention_type n_hidden n_head encoder_dropout
  pure (List.replicate num_ft_layers enc)

/-! ## Encoder-layer forward: attention residual step (model.py 94-130) -/

/-- Embeds `nn.Dropout` with rate zero (the claims consider the zero-dropout case,
where dropout is the identity map). -/
def dropoutZero (x : List ℚ) : List ℚ := x

/-- The attention-residual step of `FourierTransformerEncoderLayer.forward`
(model.py lines 114-117): `residual_type` in `['add', 'plus']` or `None`
yields `x + dropout1(att_output)`, anything else yields
`x - dropout1(att_output)`; elementwise on the tensor entries. -/
def attnResidualStep (residual_type : Option String)
    (x attOutput : List ℚ) : List ℚ :=
  if residual_type = some "add" ∨ residual_type = some "plus" ∨
      residual_type = none then
    List.zipWith (fun a b => a + b) x (dropoutZero attOutput)
  else
    List.zipWith (fun a b => a - b) x (dropoutZero attOutput)

/-! ## 1D forward: collection of preds_ortho (model.py 634-673) -/

/-- The per-layer part of the `x_ortho` collection in
`FourierTransformer.forward` (model.py lines 651-659): each encoder layer
transforms `x`, and the transformed value is appended when `return_ortho`
is set.  Encoder layers are abstracted as functions on the hidden state. -/
def orthoLoop {α : Type} (returnOrtho : Bool) :
    List (α → α) → α → List α
  | [], _ => []
  | enc :: rest, x =>
    let y := enc x
    (if returnOrtho then [y] else []) ++ orthoLoop returnOrtho rest y

/-- The `preds_ortho` field returned by `FourierTransformer.forward`
(model.py lines 642-673): the post-extractor features are appended when
`spacial_residual or return_ortho` holds (lines 647-649), then each layer
output is appended when `return_ortho` holds (lines 658-659). -/
def predsOrtho1d {α : Type} (spacialResidual returnOrtho : Bool)
    (layers : List (α → α)) (x0 : α) : List α :=
  (if spacialResidual || returnOrtho then [x0] else []) ++
    orthoLoop returnOrtho layers x0

/-! ## PointwiseRegressor (model.py 357-409) -/

/-- A built `PointwiseRegressor`.  The torch sub-layers (`nn.Linear`, the
activation, `nn.Dropout`, the output projection) are abstracted as functions
on the per-location feature vector; `libs/layers.py` internals are not under
src/, and none of them receives the grid. -/
structure PointwiseRegressorM where
  spacial_fc : Bool
  fc : List ℚ → List ℚ
  ff : List (List ℚ → List ℚ)
  dropoutF : List ℚ → List ℚ
  outProj : List ℚ → List ℚ

/-- Embeds `PointwiseRegressor.forward` (model.py lines 391-409): when `spacial_fc`
is set, the grid coordinates are concatenated to the features and passed
through `fc`; then each feed-forward block is applied followed by dropout;
finally the output projection. -/
def PointwiseRegressorM.forward (m : PointwiseRegressorM) (x : List ℚ)
    (grid : Option (List ℚ)) : List ℚ :=
  let x1 := if m.spacial_fc then m.fc (x ++ grid.getD []) else x
  let x2 := m.ff.foldl (fun a layer => m.dropoutF (layer a)) x1
  m.outProj x2

/-! ## GCN / GAT forward (model.py 297-312, 338-354) -/

/-- Embeds `nn.ReLU` on a scalar tensor entry. -/
def reluQ (a : ℚ) : ℚ := max a 0

/-- Embeds `GCN.forward` (model.py lines 297-312): `out = gcn_layer0(x, edge)`; then
for each layer of `gcn_layers[:-1]` the layer is applied and, when
`activation` is set, followed by ReLU; finally `gcn_layers[-1]` is applied
with no activation.  Graph layers (with their fixed `edge` argument) are
abstracted as functions on the node-feature state; `none` models the
IndexError raised when `gcn_layers` is empty. -/
def gcnForward {α : Type} (activation : Bool) (relu : α → α)
    (layer0 : α → α) (layers : List (α → α)) (x : α) : Option α :=
  match layers.getLast? with
  | none => none
  | some lastLayer =>
    let out := layers.dropLast.foldl
      (fun o gc => if activation then relu (gc o) else gc o) (layer0 x)
    some (lastLayer out)

/-- Embeds `GAT.forward` (model.py lines 338-354): identical activation placement to
`GCN.forward` — `gat_layer0`, then `gat_layers[:-1]` each optionally followed
by ReLU, then `gat_layers[-1]` with no activation. -/
def gatForward {α : Type} (activation : Bool) (relu : α → α)
    (layer0 : α → α) (layers : List (α → α)) (x : α) : Option α :=
  match layers.getLast? with
  | none => none
  | some lastLayer =>
    let out := layers.dropLast.foldl
      (fun o layer => if activation then relu (layer o) else layer o)
      (layer0 x)
    some (lastLayer out)

/-- The stack composition claimed by the spec (section 4.3): ReLU between
every pair of consecutive graph layers and no activation after the final
layer.  Stated over the full layer list (initial layer included). -/
def specGraphStack {α : Type} (relu : α → α) :
    List (α → α) → α → Option α
  | [], _ => none
  | [f], x => some (f x)
  | f :: g :: rest, x => specGraphStack relu (g :: rest) (relu (f x))

/-! ## 2D forward tail: crop, regress, pad (model.py 816-863) -/

/-- The symmetric one-cell crop `x[:, 1:-1, 1:-1]` (model.py line 853):
drop the first and last row and the first and last column.  A single batch
element is a list of rows of cells. -/
def crop1 {α : Type} (xs : List (List α)) : List (List α) :=
  ((xs.drop 1).dropLast).map (fun r => (r.drop 1).dropLast)

/-- The conditional crop of `FourierTransformer2D.forward` (model.py lines
852-853): when the (upscaled) spatial resolution differs from the grid's,
exactly a one-cell border is cropped. -/
def cropToGrid {α : Type} (gridRows : Nat) (xs : List (List α)) :
    List (List α) :=
  if xs.length ≠ gridRows then crop1 xs else xs

/-- Embeds `F.pad(x, (0, 0, 1, 1, 1, 1), "constant", 0)` (model.py line 859):
zero-pad a one-cell border on both spatial dimensions, keeping the channel
dimension; `z` is the zero cell. -/
def padBorder {α : Type} (z : α) (xs : List (List α)) : List (List α) :=
  let m := (xs.head?.map List.length).getD 0
  let zrow := List.replicate (m + 2) z
  zrow :: (xs.map (fun r => z :: (r ++ [z])) ++ [zrow])

/-- The tail of `FourierTransformer2D.forward` after the upscaler and dropout
(model.py lines 852-863): conditional one-cell crop to the grid resolution,
per-location regressor, optional inverse normalization, and the one-cell
zero-pad applied when `boundary_condition` is `dirichlet` or `None`.  Cells
are channel vectors; the regressor and normalizer act per location. -/
def forwardTail2d (boundary_condition : Option String) (n_targets : Nat)
    (gridRows : Nat) (normalizer : Option (List ℚ → List ℚ))
    (regress : List ℚ → List ℚ) (x : List (List (List ℚ))) :
    List (List (List ℚ)) :=
  let x1 := cropToGrid gridRows x
  let x2 := x1.map (fun r => r.map regress)
  let x3 := match normalizer with
    | none => x2
    | some f => x2.map (fun r => r.map f)
  if boundary_condition = some "dirichlet" ∨ boundary_condition = none then
    padBorder (List.replicate n_targets 0) x3
  else x3

/-! ## Fourier vs Galerkin attention (spec-modelled)

`SimpleAttention` lives in `libs/layers.py`, which is not under src/; the
variants are modelled from spec section 4.1. -/

/-- Dot product of two per-head feature vectors. -/
def dotQ (u v : List ℚ) : ℚ := (List.zipWith (fun a b => a * b) u v).sum

/-- Scalar multiple of a feature vector. -/
def scaleQ (c : ℚ) (v : List ℚ) : List ℚ := v.map (fun a => c * a)

/-- Elementwise sum of two feature vectors. -/
def addQ (u v : List ℚ) : List ℚ := List.zipWith (fun a b => a + b) u v

/-- Sum of a list of `d`-dimensional feature vectors. -/
def vecSum (d : Nat) (ls : List (List ℚ)) : List ℚ :=
  ls.foldl addQ (List.replicate d 0)

/-- Modelled from the spec: layer normalization of a feature vector —
subtract the mean and divide by the square root of the (biased) variance
plus a small epsilon (spec section 4.1: "an explicit instance/layer
normalization pass", "normalization uses a small epsilon (1e-7 class)").
The square root, irrational in general, is abstracted as the parameter
`sqrtF`; theorems assume only positivity and strict monotonicity. -/
def layerNormW (sqrtF : ℚ → ℚ) (eps : ℚ) (v : List ℚ) : List ℚ :=
  let n : ℚ := v.length
  let mu := v.sum / n
  let sigma2 := (v.map (fun a => (a - mu) ^ 2)).sum / n
  v.map (fun a => (a - mu) / sqrtF (sigma2 + eps))

/-- Modelled from the spec: the rearranged linear-cost attention shared by
the `fourier` and `galerkin` variants (spec section 4.1) — the kernel is
computed as the key-value inner product first, so for each query `q` the
output is `(1/n) * sum over s of (q . k_s) * v_s`, which equals
`Q (K^T V) / n`.  Projections are identity (identical initialization). -/
def linearAttnCore (d : Nat) (qs ks vs : List (List ℚ)) :
    List (List ℚ) :=
  let n : ℚ := ks.length
  qs.map (fun q =>
    scaleQ (1 / n) (vecSum d (List.zipWith (fun k v => scaleQ (dotQ q k) v)
      ks vs)))

/-- Modelled from the spec: the `fourier` variant normalizes queries AND keys
before the rearranged inner product (spec section 4.1). -/
def fourierAttn (sqrtF : ℚ → ℚ) (eps : ℚ) (d : Nat)
    (qs ks vs : List (List ℚ)) : List (List ℚ) :=
  linearAttnCore d (qs.map (layerNormW sqrtF eps))
    (ks.map (layerNormW sqrtF eps)) vs

/-- Modelled from the spec: the `galerkin` variant normalizes only keys and
values, not queries (spec section 4.1, "the distinguishing design choice"). -/
def galerkinAttn (sqrtF : ℚ → ℚ) (eps : ℚ) (d : Nat)
    (qs ks vs : List (List ℚ)) : List (List ℚ) :=
  linearAttnCore d qs (ks.map (layerNormW sqrtF eps))
    (vs.map (layerNormW sqrtF eps))

/-! ## Theorems -/

/-- C1: the claim states that an unrecognized attention-variant string fails
at construction with a "not implemented" signal for BOTH operators.  This is
false for the 1D operator: `FourierTransformer._get_encoder` has no such
check, so with an explicitly configured dropout (here 0.1) construction with
`attention_type='bogus'` succeeds, silently building the official torch
encoder layer. -/
theorem c1_unrecognized_1d_succeeds :
    "bogus" ∉ attentionTypes1d ∧ "bogus" ≠ "official" ∧
    mkFourierTransformer1d "bogus" 96 2 (some (1/10)) 2 =
      Except.ok [EncoderKind.officialLayer, EncoderKind.officialLayer] := by
  refine ⟨by decide, by decide, ?_⟩
  have h3 : "bogus" ∉ attentionTypes1d := by decide
  norm_num [mkFourierTransformer1d, getEncoder1d, h3,
    mkTransformerEncoderLayer, mkMultiheadAttention, mkDropout, bind,
    Except.bind, Functor.map, Except.map, pure, Except.pure, List.replicate]

/-- C1 (amended): an unrecognized attention-variant string fails at
construction with the "not implemented" signal only for the 2D operator.
The 1D operator has no such check: with a configured dropout in `[0, 1]`
(and a divisible head count) it silently falls back to the official torch
encoder layer and does not fail, while under the default unset (`None`)
dropout its fallback does fail at construction — but with the
`nn.Dropout(None)` TypeError (model.py line 152, reached from line 758),
not with a "not implemented" signal. -/
theorem c1_amended_2d_fails_1d_falls_back (s : String)
    (h1 : s ∉ attentionTypes2d) (h2 : s ≠ "official")
    (h3 : s ∉ attentionTypes1d) (n_hidden n_head : Nat) (p : ℚ) (nl : Nat)
    (hdiv : n_hidden % n_head = 0) (hp0 : 0 ≤ p) (hp1 : p ≤ 1) :
    mkFourierTransformer2d s n_hidden n_head (some p) nl =
      Except.error "encoder type not implemented." ∧
    mkFourierTransformer1d s n_hidden n_head (some p) nl =
      Except.ok (List.replicate nl EncoderKind.officialLayer) ∧
    mkFourierTransformer1d s n_hidden n_head none nl =
      Except.error
        "TypeError: dropout rate None is not comparable with int" := by
  have hrange : ¬(p < 0 ∨ 1 < p) := by
    rw [not_or]
    exact ⟨not_lt.mpr hp0, not_lt.mpr hp1⟩
  refine ⟨?_, ?_, ?_⟩
  · simp [mkFourierTransformer2d, getEncoder2d, h1, h2]
  · simp [mkFourierTransformer1d, getEncoder1d, h3,
      mkTransformerEncoderLayer, mkMultiheadAttention, mkDropout, hdiv,
      hrange, bind, Except.bind, Functor.map, Except.map, pure,
      Except.pure]
  · simp [mkFourierTransformer1d, getEncoder1d, h3,
      mkTransformerEncoderLayer, mkMultiheadAttention, mkDropout, hdiv,
      bind, Except.bind, Functor.map, Except.map, pure, Except.pure]

/-- C1 (amended) witness at the concrete inputs: variant `bogus`, hidden
width 96, 2 heads, dropout 0.1 set (fallback succeeds) and unset (fallback
crashes in `nn.Dropout`). -/
theorem c1_amended_witness :
    mkFourierTransformer2d "bogus" 96 2 (some (1/10)) 2 =
      Except.error "encoder type not implemented." ∧
    mkFourierTransformer1d "bogus" 96 2 (some (1/10)) 2 =
      Except.ok (List.replicate 2 EncoderKind.officialLayer) ∧
    mkFourierTransformer1d "bogus" 96 2 none 2 =
      Except.error
        "TypeError: dropout rate None is not comparable with int" :=
  c1_amended_2d_fails_1d_falls_back "bogus" (by decide) (by decide)
    (by decide) 96 2 (1/10) 2 (by decide) (by norm_num) (by norm_num)

/-- C2: under zero dropout, the attention-residual step of the encoder layer
returns the elementwise sum `x + attn(x)` when `residual_type` is `add` and
the elementwise difference `x - attn(x)` when it is `minus`. -/
theorem c2_residual_add_minus (x a : List ℚ) :
    attnResidualStep (some "add") x a =
      List.zipWith (fun u v => u + v) x a ∧
    attnResidualStep (some "minus") x a =
      List.zipWith (fun u v => u - v) x a := by
  constructor
  · rw [attnResidualStep, if_pos (Or.inl rfl)]; rfl
  · rw [attnResidualStep, if_neg (by decide)]; rfl

/-- C4: for every recognized attention variant, when the head count does not
evenly divide the hidden width, 1D operator construction fails at build time
with the divisibility error (before any forward pass). -/
theorem c4_head_count_must_divide (s : String) (n_hidden n_head : Nat)
    (d : Option ℚ) (nl : Nat) (hs : s ∈ attentionTypes1d)
    (hmod : n_hidden % n_head ≠ 0) :
    mkFourierTransformer1d s n_hidden n_head d nl =
      Except.error "d_model must be divisible by n_head" := by
  simp [mkFourierTransformer1d, getEncoder1d, hs,
    mkFourierTransformerEncoderLayer, mkSimpleAttention, hmod]

/-- C4 witness: `n_head=3`, `n_hidden=10` (`10 % 3 ≠ 0`) fails at
construction. -/
theorem c4_witness :
    10 % 3 ≠ 0 ∧
    mkFourierTransformer1d "fourier" 10 3 none 4 =
      Except.error "d_model must be divisible by n_head" :=
  ⟨by decide, c4_head_count_must_divide "fourier" 10 3 none 4 (by decide)
    (by decide)⟩

/-- Helper for C6: with `return_ortho` off, the encoder loop appends
nothing. -/
theorem orthoLoop_false_eq_nil {α : Type} (layers : List (α → α)) (x : α) :
    orthoLoop false layers x = [] := by
  induction layers generalizing x with
  | nil => rfl
  | cons f rest ih => simp [orthoLoop, ih]

/-- C6: the claim states `preds_ortho` is non-empty only if `return_ortho`
was requested.  False: with `spacial_residual` set and `return_ortho` off,
the post-extractor features are still appended (model.py lines 647-649). -/
theorem c6_counterexample :
    predsOrtho1d true false ([] : List (ℚ → ℚ)) 0 ≠ [] := by
  decide

/-- C6 (amended): `preds_ortho` is empty exactly when neither
`spacial_residual` nor `return_ortho` is requested; with `spacial_residual`
alone it still holds the post-extractor snapshot. -/
theorem c6_amended_ortho_empty_iff {α : Type} (s r : Bool)
    (layers : List (α → α)) (x0 : α) :
    predsOrtho1d s r layers x0 = [] ↔ s = false ∧ r = false := by
  cases s <;> cases r <;>
    simp [predsOrtho1d, orthoLoop_false_eq_nil]

/-- C7: the pointwise regressor with `spacial_fc=False` ignores the grid
argument entirely — for a fixed input, any two grid values give identical
outputs. -/
theorem c7_grid_independent (m : PointwiseRegressorM) (x : List ℚ)
    (g1 g2 : Option (List ℚ)) (h : m.spacial_fc = false) :
    m.forward x g1 = m.forward x g2 := by
  simp [PointwiseRegressorM.forward, h]

/-- C7 witness: a concrete regressor with `spacial_fc=False` evaluated on two
different grids. -/
theorem c7_witness :
    PointwiseRegressorM.forward
      ⟨false, id, [fun l => l.map (fun a => a + 1)], id, id⟩ [1, 2]
      (some [3]) =
    PointwiseRegressorM.forward
      ⟨false, id, [fun l => l.map (fun a => a + 1)], id, id⟩ [1, 2] none :=
  c7_grid_independent _ _ _ _ rfl

/-- C9: an encoder layer successfully built with attention type `linear` or
`softmax` has dropout at least 0.1 (the class default), whatever dropout was
configured, including `None`. -/
theorem c9_linear_softmax_min_dropout (d_model n_head : Nat) (s : String)
    (dp : Option ℚ) (cfg : EncoderLayerCfg)
    (hs : s = "linear" ∨ s = "softmax")
    (hok : mkFourierTransformerEncoderLayer d_model n_head s dp =
      Except.ok cfg) :
    1/10 ≤ cfg.dropout := by
  have hd : effectiveDropout s dp = 1/10 := by
    rcases hs with h | h <;> simp [effectiveDropout, h]
  by_cases hmod : d_model % n_head = 0
  · simp [mkFourierTransformerEncoderLayer, mkSimpleAttention, hmod] at hok
    rw [← hok]
    simp [hd]
  · simp [mkFourierTransformerEncoderLayer, mkSimpleAttention, hmod] at hok

/-- C9 witness: `linear` attention with configured dropout 0 still gets
dropout 0.1 = 1/10. -/
theorem c9_witness :
    1/10 ≤ (EncoderLayerCfg.mk 96 2 "linear" (1/10)).dropout :=
  c9_linear_softmax_min_dropout 96 2 "linear" (some 0) _ (Or.inl rfl)
    (by rfl)

/-- Helper for C8: the shared loop shape of `GCN.forward` / `GAT.forward`
with activation on — fold ReLU-after-layer over all but the last stacked
layer, then the last stacked layer bare — equals interleaving ReLU between
consecutive layers of the stacked list only. -/
theorem graphStackLoop_eq_specGraphStack {α : Type} (relu : α → α)
    (layers : List (α → α)) (y : α) :
    (match layers.getLast? with
     | none => none
     | some lastLayer =>
       some (lastLayer
        (layers.dropLast.foldl (fun o gc => relu (gc o)) y))) =
    specGraphStack relu layers y := by
  induction layers generalizing y with
  | nil => rfl
  | cons f rest ih =>
    cases rest with
    | nil => rfl
    | cons g rest2 =>
      have hstep :
          (match (g :: rest2).getLast? with
           | none => none
           | some lastLayer =>
             some (lastLayer
              ((g :: rest2).dropLast.foldl (fun o gc => relu (gc o))
                (relu (f y))))) =
          specGraphStack relu (g :: rest2) (relu (f y)) := ih (relu (f y))
      simpa [List.getLast?_cons_cons, specGraphStack] using hstep

/-- C8: the claim states that with activation enabled a ReLU sits between
EVERY pair of consecutive graph layers.  False for both extractors: no ReLU
is applied between the input layer (`gcn_layer0` / `gat_layer0`) and the
first stacked layer.  Concretely, with two layers, a constant `-1` first
layer and an identity second layer on input `0`, the code yields `-1` while
the claimed ReLU-interleaved stack yields `0`. -/
theorem c8_counterexample :
    gcnForward true reluQ (fun _ => (-1 : ℚ)) [fun a => a] 0 ≠
      specGraphStack reluQ ((fun _ => (-1 : ℚ)) :: [fun a => a]) 0 ∧
    gatForward true reluQ (fun _ => (-1 : ℚ)) [fun a => a] 0 ≠
      specGraphStack reluQ ((fun _ => (-1 : ℚ)) :: [fun a => a]) 0 := by
  constructor <;> decide

/-- C8 (amended): with activation enabled, ReLU is applied between
consecutive layers of the stacked layer list (`gcn_layers` / `gat_layers`)
and no activation is applied after the final layer — but no ReLU separates
the initial layer from the first stacked layer. -/
theorem c8_amended_relu_placement {α : Type} (relu : α → α)
    (layer0 : α → α) (layers : List (α → α)) (x : α) :
    gcnForward true relu layer0 layers x =
      specGraphStack relu layers (layer0 x) ∧
    gatForward true relu layer0 layers x =
      specGraphStack relu layers (layer0 x) := by
  constructor
  · rw [← graphStackLoop_eq_specGraphStack relu layers (layer0 x)]
    simp [gcnForward]
  · rw [← graphStackLoop_eq_specGraphStack relu layers (layer0 x)]
    simp [gatForward]

/-- Helper: shape of the one-cell zero-pad — two more rows, two more cells
per row. -/
theorem padBorder_shape {α : Type} (z : α) (xs : List (List α)) (n m : Nat)
    (hlen : xs.length = n) (hrow : ∀ r ∈ xs, r.length = m) (hne : xs ≠ []) :
    (padBorder z xs).length = n + 2 ∧
    ∀ r ∈ padBorder z xs, r.length = m + 2 := by
  obtain ⟨a, t, rfl⟩ := List.exists_cons_of_ne_nil hne
  have ha : a.length = m := hrow a (List.mem_cons_self a t)
  constructor
  · simp [padBorder, ← hlen]
  · intro r hr
    simp only [padBorder, List.head?_cons, Option.map_some, Option.getD_some,
      List.mem_cons, List.mem_append, List.mem_map, List.not_mem_nil,
      or_false] at hr
    rcases hr with h | ⟨r0, hr0, rfl⟩ | h
    · rw [h]
      simp [ha]
    · have hr0m : r0.length = m := hrow r0 (List.mem_cons.mpr hr0)
      simp [hr0m]
    · rw [h]
      simp [ha]

/-- C5: for the 2D operator with scaler, a 33x33 upscaled tensor and a 31x31
grid argument: the mismatch branch crops exactly the one-cell symmetric
border before the regressor, and — under the default (`None`) or `dirichlet`
boundary condition — the final prediction is restored to 33x33.  The
upscaler producing a 33x33 tensor is the spec's scaler contract (its code,
`libs/layers.py`, is not under src/) and enters as a hypothesis. -/
theorem c5_one_cell_crop_then_restore (bc : Option String) (nt : Nat)
    (normalizer : Option (List ℚ → List ℚ)) (f : List ℚ → List ℚ)
    (x : List (List (List ℚ)))
    (hbc : bc = none ∨ bc = some "dirichlet")
    (hlen : x.length = 33) (hrow : ∀ r ∈ x, r.length = 33) :
    cropToGrid 31 x = crop1 x ∧
    (crop1 x).length = 31 ∧ (∀ r ∈ crop1 x, r.length = 31) ∧
    (forwardTail2d bc nt 31 normalizer f x).length = 33 ∧
    (∀ r ∈ forwardTail2d bc nt 31 normalizer f x, r.length = 33) := by
  have hcrop : cropToGrid 31 x = crop1 x := by
    simp [cropToGrid, hlen]
  have hclen : (crop1 x).length = 31 := by
    simp [crop1, hlen]
  have hcrow : ∀ r ∈ crop1 x, r.length = 31 := by
    intro r hr
    simp only [crop1, List.mem_map] at hr
    obtain ⟨r0, hr0, rfl⟩ := hr
    have hr0x : r0 ∈ x :=
      List.drop_subset 1 x (List.dropLast_subset (x.drop 1) hr0)
    simp [hrow r0 hr0x]
  set x3 : List (List (List ℚ)) :=
    match normalizer with
    | none => (crop1 x).map (fun r => r.map f)
    | some g => ((crop1 x).map (fun r => r.map f)).map (fun r => r.map g)
    with hx3def
  have h3len : x3.length = 31 := by
    cases normalizer <;> simp [hx3def, hclen]
  have h3row : ∀ r ∈ x3, r.length = 31 := by
    intro r hr
    cases normalizer <;> simp only [hx3def, List.mem_map] at hr
    · obtain ⟨r0, hr0, rfl⟩ := hr
      simp [hcrow r0 hr0]
    · obtain ⟨r1, ⟨r0, hr0, rfl⟩, rfl⟩ := hr
      simp [hcrow r0 hr0]
  have h3ne : x3 ≠ [] := by
    intro h
    rw [h] at h3len
    exact absurd h3len (by decide)
  have htail : forwardTail2d bc nt 31 normalizer f x =
      padBorder (List.replicate nt 0) x3 := by
    rcases hbc with h | h <;>
      cases normalizer <;> simp [forwardTail2d, h, hcrop, hx3def]
  have hpad := padBorder_shape (List.replicate nt (0 : ℚ)) x3 31 31 h3len
    h3row h3ne
  refine ⟨hcrop, hclen, hcrow, ?_, ?_⟩
  · rw [htail]
    exact hpad.1
  · rw [htail]
    exact hpad.2

/-- C5 witness: a concrete 33x33 single-channel tensor with a 31-row grid,
default boundary condition. -/
theorem c5_witness :
    cropToGrid 31 (List.replicate 33 (List.replicate 33 [(0 : ℚ)])) =
      crop1 (List.replicate 33 (List.replicate 33 [(0 : ℚ)])) ∧
    (crop1 (List.replicate 33 (List.replicate 33 [(0 : ℚ)]))).length = 31 ∧
    (∀ r ∈ crop1 (List.replicate 33 (List.replicate 33 [(0 : ℚ)])),
      r.length = 31) ∧
    (forwardTail2d none 1 31 none id
      (List.replicate 33 (List.replicate 33 [(0 : ℚ)]))).length = 33 ∧
    (∀ r ∈ forwardTail2d none 1 31 none id
      (List.replicate 33 (List.replicate 33 [(0 : ℚ)])), r.length = 33) :=
  c5_one_cell_crop_then_restore none 1 none id _ (Or.inl rfl) (by simp)
    (by intro r hr; simp [List.eq_of_mem_replicate hr])

/-- C10: with `boundary_condition` unset (`None`) — the default
configuration — the 2D forward still zero-pads the one-cell border, so every
returned prediction is the zero cell on its entire one-cell spatial
border. -/
theorem c10_none_boundary_zero_pad (nt gridRows : Nat)
    (normalizer : Option (List ℚ → List ℚ)) (f : List ℚ → List ℚ)
    (x : List (List (List ℚ))) :
    (∀ c ∈ (forwardTail2d none nt gridRows normalizer f x).head?.getD [],
      c = List.replicate nt 0) ∧
    (∀ c ∈ (forwardTail2d none nt gridRows normalizer f x).getLast?.getD [],
      c = List.replicate nt 0) ∧
    (∀ r ∈ forwardTail2d none nt gridRows normalizer f x,
      r.head? = some (List.replicate nt 0) ∧
      r.getLast? = some (List.replicate nt 0)) := by
  have hpad : ∃ x3, forwardTail2d none nt gridRows normalizer f x =
      padBorder (List.replicate nt 0) x3 := by
    cases normalizer with
    | none => exact ⟨_, rfl⟩
    | some g => exact ⟨_, rfl⟩
  obtain ⟨x3, hx3⟩ := hpad
  rw [hx3]
  set z : List ℚ := List.replicate nt 0 with hz
  set m : Nat := ((x3.head?.map List.length).getD 0) with hm
  have hform : padBorder z x3 =
      List.replicate (m + 2) z ::
        (x3.map (fun r => z :: (r ++ [z])) ++ [List.replicate (m + 2) z]) :=
    rfl
  refine ⟨?_, ?_, ?_⟩
  · intro c hc
    rw [hform] at hc
    simp only [List.head?_cons, Option.getD_some] at hc
    exact List.eq_of_mem_replicate hc
  · intro c hc
    rw [hform] at hc
    rw [show List.replicate (m + 2) z ::
        (x3.map (fun r => z :: (r ++ [z])) ++ [List.replicate (m + 2) z]) =
        (List.replicate (m + 2) z :: x3.map (fun r => z :: (r ++ [z]))) ++
          [List.replicate (m + 2) z] from by simp] at hc
    rw [List.getLast?_concat] at hc
    simp only [Option.getD_some] at hc
    exact List.eq_of_mem_replicate hc
  · intro r hr
    rw [hform] at hr
    simp only [List.mem_cons, List.mem_append, List.mem_map,
      List.not_mem_nil, or_false] at hr
    have hrep_head : (List.replicate (m + 2) z).head? = some z := by
      rw [List.replicate_succ]
      rfl
    have hrep_last : (List.replicate (m + 2) z).getLast? = some z := by
      rw [show m + 2 = (m + 1) + 1 from rfl, List.replicate_succ',
        List.getLast?_concat]
    rcases hr with h | ⟨r0, _, rfl⟩ | h
    · rw [h]
      exact ⟨hrep_head, hrep_last⟩
    · refine ⟨rfl, ?_⟩
      rw [show z :: (r0 ++ [z]) = (z :: r0) ++ [z] from rfl,
        List.getLast?_concat]
    · rw [h]
      exact ⟨hrep_head, hrep_last⟩

/-- C3 (spec-modelled: `SimpleAttention` lives in `libs/layers.py`, absent
from src/): the `fourier` and `galerkin` variants are distinct operators.
With identity projections (identical initialization) and an input whose
query normalization statistics (variance 4) differ from the key/value
statistics (variance 1), the two variants disagree — for every admissible
square-root map (positive and strictly monotone on positives). -/
theorem c3_fourier_galerkin_distinct (sqrtF : ℚ → ℚ)
    (hpos : ∀ y : ℚ, 0 < y → 0 < sqrtF y)
    (hmono : ∀ y z : ℚ, 0 < y → y < z → sqrtF y < sqrtF z) :
    fourierAttn sqrtF (1/10000000) 2 [[2, -2]] [[1, -1]] [[1, -1]] ≠
      galerkinAttn sqrtF (1/10000000) 2 [[2, -2]] [[1, -1]] [[1, -1]] := by
  intro h
  simp [fourierAttn, galerkinAttn, linearAttnCore, layerNormW, vecSum,
    addQ, dotQ, scaleQ] at h
  norm_num at h
  rcases h with ⟨h1, -⟩
  have hA0 : (0 : ℚ) < sqrtF (10000001 / 10000000) := hpos _ (by norm_num)
  have hAB : sqrtF (10000001 / 10000000) < sqrtF (40000001 / 10000000) :=
    hmono _ _ (by norm_num) (by norm_num)
  have hB0 : (0 : ℚ) < sqrtF (40000001 / 10000000) := lt_trans hA0 hAB
  field_simp [hA0.ne', hB0.ne'] at h1
  nlinarith [h1, hA0, hAB, hB0]

/-- C3 witness: the identity map is positive and strictly monotone on
positives, so the two variants differ on the concrete input under it. -/
theorem c3_witness :
    fourierAttn (fun y => y) (1/10000000) 2 [[2, -2]] [[1, -1]] [[1, -1]] ≠
      galerkinAttn (fun y => y) (1/10000000) 2 [[2, -2]] [[1, -1]]
        [[1, -1]] :=
  c3_fourier_galerkin_distinct (fun y => y) (fun _ hy => hy)
    (fun _ _ _ hyz => hyz)

end FourierOperator
